/-
Verification of the claude-api-logger proxy (src/claude-api-logger/server.py)
against its natural-language specification.

Shallow embedding notes:
* JSON values are modelled by the inductive type `JVal` (numbers as `Int`;
  floats are not needed by any claim).
* Python byte strings and text strings are both modelled as Lean `String`
  (one `Char` stands for one byte where byte counts matter).
* Python exceptions are modelled with `Except PyErr`; an exception that
  escapes `proxy_request` is the `HandlerOutcome.crash` outcome (the HTTP
  layer then drops the connection: no upstream call, no response, no log).
* `json.loads` / `httpx.Response.json` are modelled by an oracle
  `jsonLoads : String → Option JVal` carried in the environment, `none`
  standing for a `json.JSONDecodeError`.
* The single upstream HTTP attempt is modelled by an environment function
  `upstream : OutboundRequest → UpstreamResult`; the outcome records the
  list of outbound calls actually made, so "exactly one attempt" is provable.
* Wall-clock readings (`datetime.now()`, the duration) are inputs of the
  environment; the log-file date is an input of the log writer.
-/
import Mathlib

namespace ApiLogger

set_option maxRecDepth 4096

/-- JSON values as produced by `json.loads`. Python dicts coming from JSON
have string keys; duplicate keys in the source text are modelled by keeping
the whole association list and looking up the *last* occurrence, as
`json.loads` lets later duplicates overwrite earlier ones. -/
inductive JVal where
  | null : JVal
  | bool : Bool → JVal
  | num : Int → JVal
  | str : String → JVal
  | arr : List JVal → JVal
  | obj : List (String × JVal) → JVal
deriving Repr

/-- Python exceptions that can arise in the handler's pure fragments. -/
inductive PyErr where
  | valueError : PyErr
  | attributeError : PyErr
  | typeError : PyErr
  | keyError : PyErr
  | indexError : PyErr
deriving Repr, DecidableEq

/-- Last-occurrence lookup in an association list (Python dict built by
`json.loads`: later duplicate keys win). -/
def lookupLast (kvs : List (String × JVal)) (k : String) : Option JVal :=
  (kvs.reverse.find? fun kv => kv.1 == k).map Prod.snd

/-- Python `d.get(k, default)` on a value: only dicts have `.get`;
anything else raises `AttributeError`. -/
def pyGet (v : JVal) (k : String) (d : JVal) : Except PyErr JVal :=
  match v with
  | .obj kvs => .ok ((lookupLast kvs k).getD d)
  | _ => .error .attributeError

/-- Python truthiness of a JSON-decoded value. -/
def pyTruthy : JVal → Bool
  | .null => false
  | .bool b => b
  | .num n => n != 0
  | .str s => !s.isEmpty
  | .arr xs => !xs.isEmpty
  | .obj kvs => !kvs.isEmpty

/-- Python slicing `s[:n]` on a string: its first `n` characters. -/
def pyTake (s : String) (n : Nat) : String :=
  ⟨s.data.take n⟩

/-- Python indexing `v[-1]` on a value: lists and strings index from the end
(an empty one raises `IndexError`), dicts raise `KeyError` (JSON dicts
have no integer keys), everything else raises `TypeError`. -/
def pyIndexLastElem : JVal → Except PyErr JVal
  | .arr xs =>
      match xs.getLast? with
      | some v => .ok v
      | none => .error .indexError
  | .str s =>
      match s.data.getLast? with
      | some c => .ok (.str ⟨[c]⟩)
      | none => .error .indexError
  | .obj _ => .error .keyError
  | _ => .error .typeError

/-- Python `s.lower()` on a header name (ASCII is all HTTP header names use). -/
def lowerStr (s : String) : String := ⟨s.data.map Char.toLower⟩

/-- The numeric value of an ASCII digit. -/
def charDigit (c : Char) : Option Nat :=
  if 48 ≤ c.toNat && c.toNat ≤ 57 then some (c.toNat - 48) else none

/-- A non-empty all-digit character list as a natural number. -/
def parseNatChars (cs : List Char) : Option Nat :=
  match cs with
  | [] => none
  | _ => cs.foldl (fun acc c =>
      match acc, charDigit c with
      | some a, some d => some (a * 10 + d)
      | _, _ => none) (some 0)

/-- Python `int(s)` for an optionally `-`-signed digit string.
(Whitespace stripping, a leading `+` and underscores are not modelled;
no claim uses such headers.) -/
def pyIntStr (s : String) : Option Int :=
  match s.data with
  | '-' :: rest => (parseNatChars rest).map (fun n => -(n : Int))
  | cs => (parseNatChars cs).map (fun n => (n : Int))

/-- Python `int(s)` on a string; `ValueError` when it does not parse. -/
def pyInt (s : String) : Except PyErr Int :=
  match pyIntStr s with
  | some n => .ok n
  | none => .error .valueError

/-- The test `c.get("type") == "text"`: Python `==` against a string is `True`
only for an equal string, never an error. -/
def isTextType : JVal → Bool
  | .str s => s == "text"
  | _ => false

/-- Whether a value is a string (`JVal.isStr`). -/
def JVal.isStr : JVal → Bool
  | .str _ => true
  | _ => false

/-- Python `sep.join(parts)` needs every part to be a `str`, else `TypeError`. -/
def pyStrList : List JVal → Except PyErr (List String)
  | [] => .ok []
  | .str s :: rest => (pyStrList rest).map fun r => s :: r
  | _ :: _ => .error .typeError

/-- The join `" ".join(parts)` for a list of Python values. -/
def pyJoin (sep : String) (vs : List JVal) : Except PyErr String :=
  (pyStrList vs).map (String.intercalate sep)

/-- The comprehension `[c.get("text", "") for c in content if c.get("type") == "text"]`:
the filter condition is evaluated first for each element, and either
`.get` raises `AttributeError` on a non-dict element. -/
def extractTextParts : List JVal → Except PyErr (List JVal)
  | [] => .ok []
  | c :: rest =>
      match pyGet c "type" .null with
      | .error e => .error e
      | .ok t =>
        if isTextType t then
          match pyGet c "text" (.str "") with
          | .error e => .error e
          | .ok x =>
            match extractTextParts rest with
            | .error e => .error e
            | .ok r => .ok (x :: r)
        else
          extractTextParts rest

/-- The expression `" ".join([c.get("text", "") for c in content if c.get("type") == "text"])`,
the complete text-block extraction applied to a content list. -/
def joinTextParts (bs : List JVal) : Except PyErr String :=
  match extractTextParts bs with
  | .error e => .error e
  | .ok parts => pyJoin " " parts

/-- The request-body parse-for-logging block of `proxy_request`
(server.py lines 93-111), returning `(model, prompt_preview)`.

```
request_data = None; prompt_preview = ""; model = ""
if request_body:
    try:
        request_data = json.loads(request_body)
        model = request_data.get("model", "")
        messages = request_data.get("messages", [])
        if messages:
            last_msg = messages[-1]
            content = last_msg.get("content", "")
            if isinstance(content, str):
                prompt_preview = content[:500]
            elif isinstance(content, list):
                text_parts = [c.get("text", "") for c in content if c.get("type") == "text"]
                prompt_preview = " ".join(text_parts)[:500]
    except json.JSONDecodeError:
        pass
```

Only `json.JSONDecodeError` is caught; an `AttributeError` / `TypeError`
from the `.get` chain escapes as an uncaught exception (`Except.error`). -/
def extractModelPrompt (jsonLoads : String → Option JVal) (body : String) :
    Except PyErr (JVal × String) :=
  if body = "" then .ok (.str "", "")
  else
    match jsonLoads body with
    | none => .ok (.str "", "")
    | some rd =>
      match pyGet rd "model" (.str "") with
      | .error e => .error e
      | .ok model =>
        match pyGet rd "messages" (.arr []) with
        | .error e => .error e
        | .ok messages =>
          if pyTruthy messages then
            match pyIndexLastElem messages with
            | .error e => .error e
            | .ok lastMsg =>
              match pyGet lastMsg "content" (.str "") with
              | .error e => .error e
              | .ok content =>
                match content with
                | .str s => .ok (model, pyTake s 500)
                | .arr blocks =>
                    match joinTextParts blocks with
                    | .error e => .error e
                    | .ok joined => .ok (model, pyTake joined 500)
                | _ => .ok (model, "")
          else
            .ok (model, "")

/-- The response parse-for-logging block of `proxy_request`
(server.py lines 134-150), returning
`(response_preview, input_tokens, output_tokens)`.

```
response_preview = ""; input_tokens = 0; output_tokens = 0
try:
    response_data = response.json()
    usage = response_data.get("usage", {})
    input_tokens = usage.get("input_tokens", 0)
    output_tokens = usage.get("output_tokens", 0)
    content = response_data.get("content", [])
    if content and isinstance(content, list):
        text_parts = [c.get("text", "") for c in content if c.get("type") == "text"]
        response_preview = " ".join(text_parts)[:500]
except:
    response_preview = response.text[:500] if response.text else ""
```

The bare `except` catches everything, but an exception raised *after* an
assignment keeps the already-assigned token counts: each possible raise
point below falls back with exactly the variables assigned so far. -/
def parseResponseFields (jsonLoads : String → Option JVal) (respBody : String) :
    String × JVal × JVal :=
  let fallback : String := if respBody.isEmpty then "" else pyTake respBody 500
  match jsonLoads respBody with
  | none => (fallback, .num 0, .num 0)
  | some rd =>
    match pyGet rd "usage" (.obj []) with
    | .error _ => (fallback, .num 0, .num 0)
    | .ok usage =>
      match pyGet usage "input_tokens" (.num 0) with
      | .error _ => (fallback, .num 0, .num 0)
      | .ok itok =>
        match pyGet usage "output_tokens" (.num 0) with
        | .error _ => (fallback, itok, .num 0)
        | .ok otok =>
          match pyGet rd "content" (.arr []) with
          | .error _ => (fallback, itok, otok)
          | .ok content =>
            match content with
            | .arr blocks =>
              if pyTruthy (.arr blocks) then
                match joinTextParts blocks with
                | .error _ => (fallback, itok, otok)
                | .ok joined => (pyTake joined 500, itok, otok)
              else ("", itok, otok)
            | _ => ("", itok, otok)

/-- One character of `json.dumps` string escaping. Quotes, backslashes and
the common control characters are escaped as in Python; the `\uXXXX`
escaping of other control / non-ASCII characters is not modelled (no
claim depends on it). -/
def jsonEscapeChar (c : Char) : String :=
  if c = '"' then "\\\""
  else if c = '\\' then "\\\\"
  else if c = '\n' then "\\n"
  else if c = '\r' then "\\r"
  else if c = '\t' then "\\t"
  else String.singleton c

/-- String escaping and quoting as in `json.dumps`. -/
def jsonStr (s : String) : String :=
  "\"" ++ String.join (s.data.map jsonEscapeChar) ++ "\""

mutual
/-- Serialization as in `json.dumps` with its default separators `", "` and `": "`. -/
def jsonDumps : JVal → String
  | .null => "null"
  | .bool true => "true"
  | .bool false => "false"
  | .num n => toString n
  | .str s => jsonStr s
  | .arr xs => "[" ++ jsonDumpsArr xs ++ "]"
  | .obj kvs => "\x7b" ++ jsonDumpsObj kvs ++ "\x7d"

/-- Comma-separated serialization of a JSON array's elements. -/
def jsonDumpsArr : List JVal → String
  | [] => ""
  | [x] => jsonDumps x
  | x :: y :: rest => jsonDumps x ++ ", " ++ jsonDumpsArr (y :: rest)

/-- Comma-separated serialization of a JSON object's members. -/
def jsonDumpsObj : List (String × JVal) → String
  | [] => ""
  | [(k, v)] => jsonStr k ++ ": " ++ jsonDumps v
  | (k, v) :: m :: rest => jsonStr k ++ ": " ++ jsonDumps v ++ ", " ++ jsonDumpsObj (m :: rest)
end

/-- The log record built by `proxy_request` (server.py lines 153-164),
field for field and in dict-insertion order. `model`, `input_tokens` and
`output_tokens` hold whatever Python value the `.get` chain produced. -/
structure LogEntry where
  timestamp : String
  project : String
  model : JVal
  prompt_preview : String
  response_preview : String
  input_tokens : JVal
  output_tokens : JVal
  duration_ms : Nat
  status_code : Nat
  path : String

/-- The serialization `json.dumps(log_entry)` for the dict literal of server.py lines 153-164. -/
def serializeLogEntry (e : LogEntry) : String :=
  jsonDumps (.obj
    [("timestamp", .str e.timestamp),
     ("project", .str e.project),
     ("model", e.model),
     ("prompt_preview", .str e.prompt_preview),
     ("response_preview", .str e.response_preview),
     ("input_tokens", e.input_tokens),
     ("output_tokens", e.output_tokens),
     ("duration_ms", .num (e.duration_ms : Int)),
     ("status_code", .num (e.status_code : Int)),
     ("path", .str e.path)])

/-- The function `get_log_file` (server.py lines 40-43): the path for the given local
date, recomputed from the wall clock at each call; the date string is the
caller-supplied `datetime.now().strftime("%Y-%m-%d")` reading. -/
def get_log_file (logDir project date : String) : String :=
  logDir ++ "/" ++ project ++ "/api-log-" ++ date ++ ".jsonl"

/-- The function `log_request` (server.py lines 46-50) acting on a file system modelled
as `path ↦ contents`: open today's file in append mode and write one
serialized record plus a newline. -/
def log_request (logDir project date : String) (entry : LogEntry)
    (fs : String → String) : String → String :=
  fun p =>
    if p = get_log_file logDir project date then
      fs p ++ serializeLogEntry entry ++ "\n"
    else fs p

/-- The fixed upstream base URL (server.py line 30). -/
def ANTHROPIC_API_URL : String := "https://api.anthropic.com"

/-- The single outbound `httpx` call issued by `proxy_request`
(server.py lines 124-130). -/
structure OutboundRequest where
  method : String
  url : String
  headers : List (String × String)
  body : String

/-- What `httpx` hands back on success: status code, response headers,
and the (content-decoded) body, which `response.text` also exposes. -/
structure UpstreamResponse where
  status : Nat
  headers : List (String × String)
  body : String

/-- Outcome of the one upstream attempt: a response, or a raised
transport exception whose `str(e)` is `msg`. -/
inductive UpstreamResult where
  | ok : UpstreamResponse → UpstreamResult
  | err : (msg : String) → UpstreamResult

/-- The inbound HTTP request as seen by the handler: method, path
(with query), headers, and the bytes available for reading on the
connection (`self.rfile`). -/
structure Inbound where
  method : String
  path : String
  headers : List (String × String)
  wire : String

/-- The environment of one `proxy_request` run: the JSON library's
behaviour, the network's behaviour for the single upstream attempt,
whether the log append succeeds (`False` = the `open`/`write` raises,
with `str(e) = logErrMsg`), and the wall-clock readings. -/
structure ProxyEnv where
  jsonLoads : String → Option JVal
  upstream : OutboundRequest → UpstreamResult
  logWriteOk : Bool
  logErrMsg : String
  now : String
  durationMs : Nat
  project : String

/-- Result of one `proxy_request` run: either a response was sent to the
caller (with the log entries appended and the upstream calls made during
the run), or an uncaught exception escaped the handler — then no response
is sent, nothing is logged, and upstream was never contacted. -/
inductive HandlerOutcome where
  | respond : (status : Nat) → (headers : List (String × String)) →
      (body : String) → (entries : List LogEntry) →
      (calls : List OutboundRequest) → HandlerOutcome
  | crash : PyErr → HandlerOutcome

/-- The log entries appended during the run. -/
def HandlerOutcome.entries : HandlerOutcome → List LogEntry
  | .respond _ _ _ es _ => es
  | .crash _ => []

/-- The upstream calls attempted during the run. -/
def HandlerOutcome.callsMade : HandlerOutcome → List OutboundRequest
  | .respond _ _ _ _ cs => cs
  | .crash _ => []

/-- The status code the caller received, if a response was sent at all. -/
def HandlerOutcome.statusCode : HandlerOutcome → Option Nat
  | .respond s _ _ _ _ => some s
  | .crash _ => none

/-- The body the caller received, if a response was sent at all. -/
def HandlerOutcome.respBody : HandlerOutcome → Option String
  | .respond _ _ b _ _ => some b
  | .crash _ => none

/-- Case-insensitive header lookup (`email.message.Message.get`). -/
def headerGet (hs : List (String × String)) (k : String) : Option String :=
  (hs.find? fun kv => lowerStr kv.1 == lowerStr k).map Prod.snd

/-- The read `int(self.headers.get("Content-Length", 0))` (server.py line 89):
`0` when the header is absent, else `int()` of the header value, which
raises `ValueError` on a non-numeric value. -/
def readContentLength (hs : List (String × String)) : Except PyErr Int :=
  match headerGet hs "Content-Length" with
  | none => .ok 0
  | some s => pyInt s

/-- Outbound header filtering (server.py lines 117-120): copy all inbound
headers except `Host` and `Content-Length`, case-insensitively. -/
def filterReqHeaders (hs : List (String × String)) : List (String × String) :=
  hs.filter fun kv => lowerStr kv.1 != "host" && lowerStr kv.1 != "content-length"

/-- Response header filtering (server.py lines 171-173): copy all upstream
response headers except `Transfer-Encoding`, `Content-Encoding` and
`Content-Length`, case-insensitively. -/
def filterRespHeaders (hs : List (String × String)) : List (String × String) :=
  hs.filter fun kv =>
    lowerStr kv.1 != "transfer-encoding" && lowerStr kv.1 != "content-encoding" &&
      lowerStr kv.1 != "content-length"

/-- The body `json.dumps({"error": str(e)})` of the 502 branch (server.py line 183). -/
def errorBody (msg : String) : String :=
  jsonDumps (.obj [("error", .str msg)])

/-- The read `self.rfile.read(content_length) if content_length > 0 else b""`
(server.py line 90): when the parsed `Content-Length` is not positive,
no bytes are read from the connection at all. -/
def requestBodyOf (req : Inbound) (n : Int) : String :=
  if n > 0 then req.wire.take n.toNat else ""

/-- The outbound request `proxy_request` builds for its single `httpx`
attempt (server.py lines 113-130). -/
def outboundOf (req : Inbound) (body : String) : OutboundRequest :=
  ⟨req.method, ANTHROPIC_API_URL ++ req.path, filterReqHeaders req.headers, body⟩

/-- The handler `proxy_request` (server.py lines 84-184). The phases, in source order:
read `Content-Length` and the body; best-effort parse for logging (only
`json.JSONDecodeError` caught — any other exception escapes as `crash`);
filter headers and issue the single upstream call; on success parse the
response for logging, append the log entry, and relay status, filtered
headers (plus a recomputed `Content-Length`) and body; any exception
inside the `try` — the transport failure, or the log append raising —
lands in the `except` branch, which answers 502 with a JSON error body
and appends nothing. -/
def proxy_request (env : ProxyEnv) (req : Inbound) : HandlerOutcome :=
  match readContentLength req.headers with
  | .error e => .crash e
  | .ok n =>
    let request_body := requestBodyOf req n
    match extractModelPrompt env.jsonLoads request_body with
    | .error e => .crash e
    | .ok mp =>
      let outReq : OutboundRequest := outboundOf req request_body
      match env.upstream outReq with
      | .err msg =>
          .respond 502 [("Content-Type", "application/json")] (errorBody msg) [] [outReq]
      | .ok resp =>
          let rpf := parseResponseFields env.jsonLoads resp.body
          let entry : LogEntry :=
            ⟨env.now, env.project, mp.1, mp.2, rpf.1, rpf.2.1, rpf.2.2,
              env.durationMs, resp.status, req.path⟩
          if env.logWriteOk then
            .respond resp.status
              (filterRespHeaders resp.headers ++
                [("Content-Length", toString resp.body.length)])
              resp.body [entry] [outReq]
          else
            .respond 502 [("Content-Type", "application/json")]
              (errorBody env.logErrMsg) [] [outReq]

/-! ## Spec-side definitions

The following definitions follow the *claims'* wording (total functions,
no exceptions), to be compared with the source-derived functions above. -/

/-- Whether a value is an object (`JVal.isObj`). -/
def JVal.isObj : JVal → Bool
  | .obj _ => true
  | _ => false

/-- Spec wording: the text field of a block whose `type` equals `"text"`
(`none` for any other block). A missing or non-string text field
contributes the empty string, matching the `.get("text", "")` default. -/
def specTextOfBlock : JVal → Option String
  | .obj kvs =>
      if isTextType ((lookupLast kvs "type").getD .null) then
        some (match (lookupLast kvs "text").getD (.str "") with
              | .str t => t
              | _ => "")
      else none
  | _ => none

/-- Spec wording of the prompt-preview rule applied to a `content` value:
a plain string is truncated to 500 characters; a list is filtered to its
`"text"`-typed blocks, their texts joined with a single space and
truncated to 500 characters; any other shape yields an empty preview. -/
def specPreviewOfContent : JVal → String
  | .str s => pyTake s 500
  | .arr bs => pyTake (String.intercalate " " (bs.filterMap specTextOfBlock)) 500
  | _ => ""

/-- Spec wording of the whole prompt-preview extraction from a decoded
request body: the rule of `specPreviewOfContent` applied to the `content`
of the last element of `messages`. -/
def spec_prompt_preview : JVal → String
  | .obj kvs =>
      match lookupLast kvs "messages" with
      | some (.arr ms) =>
          match ms.getLast? with
          | some (.obj lk) => specPreviewOfContent ((lookupLast lk "content").getD (.str ""))
          | _ => ""
      | _ => ""
  | _ => ""

/-- A content block the source code can process without raising: it is an
object, and if it is `"text"`-typed its (defaulted) text field is a
string. -/
def blockOK : JVal → Bool
  | .obj kvs =>
      !(isTextType ((lookupLast kvs "type").getD .null)) ||
        ((lookupLast kvs "text").getD (.str "")).isStr
  | _ => false

/-- A content value the source code can process without raising. -/
def contentOK : JVal → Bool
  | .arr bs => bs.all blockOK
  | _ => true

/-- Shape of a decoded request body inside the scope of claim C4: a JSON
object whose `messages` is a non-empty array, whose last element is an
object, and whose content the code can process without raising. -/
def promptShapeOK : JVal → Bool
  | .obj kvs =>
      match lookupLast kvs "messages" with
      | some (.arr ms) =>
          !ms.isEmpty &&
            (match ms.getLast? with
             | some (.obj lk) => contentOK ((lookupLast lk "content").getD (.str ""))
             | _ => false)
      | _ => false
  | _ => false

/-- Spec wording: `usage.input_tokens` of a decoded response body,
defaulting to `0` at every step. -/
def spec_input_tokens : JVal → JVal
  | .obj kvs =>
      match (lookupLast kvs "usage").getD (.obj []) with
      | .obj ukvs => (lookupLast ukvs "input_tokens").getD (.num 0)
      | _ => .num 0
  | _ => .num 0

/-- Spec wording: `usage.output_tokens` of a decoded response body,
defaulting to `0` at every step. -/
def spec_output_tokens : JVal → JVal
  | .obj kvs =>
      match (lookupLast kvs "usage").getD (.obj []) with
      | .obj ukvs => (lookupLast ukvs "output_tokens").getD (.num 0)
      | _ => .num 0
  | _ => .num 0

/-- Spec wording: the response preview as the space-joined texts of the
`"text"`-typed blocks of the response's `content` array, truncated to
500 characters. -/
def spec_response_preview : JVal → String
  | .obj kvs =>
      match (lookupLast kvs "content").getD (.arr []) with
      | .arr bs => pyTake (String.intercalate " " (bs.filterMap specTextOfBlock)) 500
      | _ => ""
  | _ => ""

/-- Shape of a decoded response body inside the scope of claim C7: a JSON
object whose (defaulted) `usage` is an object and whose (defaulted)
`content` is an array of processable blocks. -/
def responseShapeOK : JVal → Bool
  | .obj kvs =>
      ((lookupLast kvs "usage").getD (.obj [])).isObj &&
        (match (lookupLast kvs "content").getD (.arr []) with
         | .arr bs => bs.all blockOK
         | _ => false)
  | _ => false

/-! ## Helper lemmas -/

/-- The function `pyStrList` succeeds on a list of string values. -/
lemma pyStrList_map_str (ss : List String) :
    pyStrList (ss.map JVal.str) = .ok ss := by
  induction ss with
  | nil => rfl
  | cons s rest ih => simp [pyStrList, ih, Except.map]

/-- The function `pyStrList` fails as soon as it meets a non-string value. -/
lemma pyStrList_head_not_str (x : JVal) (r : List JVal) (hx : x.isStr = false) :
    pyStrList (x :: r) = .error .typeError := by
  cases x <;> simp_all [JVal.isStr, pyStrList]

/-- Mapping over `Except` preserves success/failure. -/
lemma isOk_map {α β γ : Type} (f : α → β) (e : Except γ α) :
    (e.map f).isOk = e.isOk := by
  cases e <;> rfl

/-- The function `pyJoin` succeeds exactly when `pyStrList` does. -/
lemma isOk_pyJoin (sep : String) (vs : List JVal) :
    (pyJoin sep vs).isOk = (pyStrList vs).isOk := by
  rw [pyJoin, isOk_map]

/-- On a list of processable blocks, the source's text-block extraction
succeeds and returns exactly the spec-worded text list. -/
lemma extractTextParts_of_blockOK (bs : List JVal) (h : bs.all blockOK = true) :
    extractTextParts bs = .ok ((bs.filterMap specTextOfBlock).map JVal.str) := by
  induction bs with
  | nil => rfl
  | cons c rest ih =>
    rw [List.all_cons, Bool.and_eq_true] at h
    obtain ⟨hc, hrest⟩ := h
    have ihr := ih hrest
    cases c with
    | obj kvs =>
      simp only [extractTextParts, pyGet, specTextOfBlock, List.filterMap_cons]
      cases hb : isTextType ((lookupLast kvs "type").getD .null) with
      | false => simp [hb, ihr]
      | true =>
        simp only [blockOK, hb, Bool.not_true, Bool.false_or] at hc
        cases hx : (lookupLast kvs "text").getD (.str "") with
        | str t => simp [hb, hx, ihr]
        | null => rw [hx] at hc; cases hc
        | bool b => rw [hx] at hc; cases hc
        | num n => rw [hx] at hc; cases hc
        | arr xs => rw [hx] at hc; cases hc
        | obj okvs => rw [hx] at hc; cases hc
    | null => simp [blockOK] at hc
    | bool b => simp [blockOK] at hc
    | num n => simp [blockOK] at hc
    | str s => simp [blockOK] at hc
    | arr xs => simp [blockOK] at hc

/-- On a list of processable blocks, the source's full join-of-text-blocks
computation equals the spec-worded space-join. -/
lemma joinTextParts_of_blockOK (bs : List JVal) (h : bs.all blockOK = true) :
    joinTextParts bs = .ok (String.intercalate " " (bs.filterMap specTextOfBlock)) := by
  rw [joinTextParts, extractTextParts_of_blockOK bs h]
  simp [pyJoin, pyStrList_map_str, Except.map]

/-- As soon as some block is not processable, the source's
join-of-text-blocks computation raises some exception. -/
lemma joinTextParts_of_not_blockOK (bs : List JVal) (h : bs.all blockOK = false) :
    (joinTextParts bs).isOk = false := by
  induction bs with
  | nil => simp at h
  | cons c rest ih =>
    rw [List.all_cons] at h
    cases c with
    | obj kvs =>
      cases hb : isTextType ((lookupLast kvs "type").getD .null) with
      | false =>
        -- block skipped by the filter: reduces to the tail, whose `all` must be false
        have hrest : rest.all blockOK = false := by
          simpa [blockOK, hb] using h
        have ihr := ih hrest
        simp only [joinTextParts, extractTextParts, pyGet, hb] at *
        simpa using ihr
      | true =>
        simp only [joinTextParts, extractTextParts, pyGet, hb, if_true]
        cases he : extractTextParts rest with
        | error e => rfl
        | ok r =>
          dsimp only
          cases hx : ((lookupLast kvs "text").getD (.str "")).isStr with
          | false =>
            -- the collected part is not a string: the join raises TypeError
            rw [show pyJoin " " (((lookupLast kvs "text").getD (.str "")) :: r)
                  = .error .typeError from by
                rw [pyJoin, pyStrList_head_not_str _ _ hx]; rfl]
            rfl
          | true =>
            -- this block was fine, so the tail must be at fault
            have hrest : rest.all blockOK = false := by
              simpa [blockOK, hb, hx] using h
            have ihr := ih hrest
            rw [joinTextParts, he, isOk_pyJoin] at ihr
            cases hxv : (lookupLast kvs "text").getD (.str "") with
            | str t =>
              rw [isOk_pyJoin]
              rw [show pyStrList (.str t :: r) = (pyStrList r).map fun l => t :: l from rfl,
                isOk_map]
              exact ihr
            | null => rw [hxv] at hx; cases hx
            | bool b => rw [hxv] at hx; cases hx
            | num n => rw [hxv] at hx; cases hx
            | arr xs => rw [hxv] at hx; cases hx
            | obj okvs => rw [hxv] at hx; cases hx
    | null => rfl
    | bool b => rfl
    | num n => rfl
    | str s => rfl
    | arr xs => rfl

/-! ## Claim C4 -/

/-- A request body for C4's counterexample: the last message's content is
the list `[5]`, whose element is not an object. -/
def rdC4 : JVal := .obj [("messages", .arr [.obj [("content", .arr [.num 5])]])]

/-- The raw JSON text decoding to `rdC4`. -/
def bodyC4 : String := "\x7b\"messages\": [\x7b\"content\": [5]\x7d]\x7d"

/-- A `json.loads` behaviour that decodes `bodyC4` to `rdC4`. -/
def jlC4 : String → Option JVal := fun s => if s = bodyC4 then some rdC4 else none

/-- C4 (counterexample): for the body `{"messages": [{"content": [5]}]}` —
a non-empty `messages` array whose last element's content is a list with a
non-object block — the claim's rule yields an empty preview (the list has
no `"text"`-typed blocks), but the source raises an uncaught
`AttributeError` instead of producing any preview at all. -/
theorem C4_counterexample :
    spec_prompt_preview rdC4 = "" ∧
      extractModelPrompt jlC4 bodyC4 = .error .attributeError := by
  constructor
  · decide
  · have h1 : bodyC4 ≠ "" := by decide
    have h2 : jlC4 bodyC4 = some rdC4 := by simp [jlC4]
    rw [extractModelPrompt, if_neg h1, h2]
    rfl

/-- C4 (amended): for every request body with a non-empty `messages`
array whose last element is an object and whose content the code can
process without raising — content a plain string, or a list all of whose
elements are objects with a string (or absent) text field on the
`"text"`-typed ones — `prompt_preview` is computed exactly as the claim
states: a string content truncated to 500 characters, a list content
filtered to `"text"`-typed blocks, joined with a single space and
truncated to 500 characters, any other content shape an empty preview.
A non-object last message, a non-object content block, or a non-string
text field instead raises an uncaught exception. -/
theorem C4_amended (jsonLoads : String → Option JVal) (body : String) (rd : JVal)
    (hb : body ≠ "") (hp : jsonLoads body = some rd)
    (hs : promptShapeOK rd = true) :
    (extractModelPrompt jsonLoads body).map Prod.snd = .ok (spec_prompt_preview rd) := by
  cases rd with
  | obj kvs =>
    rw [extractModelPrompt, if_neg hb, hp]
    dsimp only [pyGet]
    cases hm : lookupLast kvs "messages" with
    | none => simp [promptShapeOK, hm] at hs
    | some mv =>
      cases mv with
      | arr ms =>
        simp only [promptShapeOK, hm, Bool.and_eq_true, Bool.not_eq_true'] at hs
        obtain ⟨hne, hlast⟩ := hs
        rw [show ((some (JVal.arr ms)).getD (.arr [])) = JVal.arr ms from rfl]
        have htr : pyTruthy (.arr ms) = true := by simp [pyTruthy, hne]
        rw [if_pos htr]
        dsimp only [pyIndexLastElem]
        cases hl : ms.getLast? with
        | none => rw [hl] at hlast; simp at hlast
        | some lastMsg =>
          rw [hl] at hlast
          cases lastMsg with
          | obj lk =>
            dsimp only at hlast
            dsimp only [pyGet]
            simp only [spec_prompt_preview]
            rw [hm]
            dsimp only
            rw [hl]
            dsimp only
            cases hc : (lookupLast lk "content").getD (.str "") with
            | str s => rfl
            | arr bs =>
              rw [hc] at hlast
              simp only [contentOK] at hlast
              dsimp only
              rw [joinTextParts_of_blockOK bs hlast]
              rfl
            | null => rfl
            | bool b => rfl
            | num n => rfl
            | obj okvs => rfl
          | null => simp at hlast
          | bool b => simp at hlast
          | num n => simp at hlast
          | str s => simp at hlast
          | arr xs => simp at hlast
      | null => simp [promptShapeOK, hm] at hs
      | bool b => simp [promptShapeOK, hm] at hs
      | num n => simp [promptShapeOK, hm] at hs
      | str s => simp [promptShapeOK, hm] at hs
      | obj okvs => simp [promptShapeOK, hm] at hs
  | null => simp [promptShapeOK] at hs
  | bool b => simp [promptShapeOK] at hs
  | num n => simp [promptShapeOK] at hs
  | str s => simp [promptShapeOK] at hs
  | arr xs => simp [promptShapeOK] at hs

/-- Request body for C4's witness: the spec's own example, a content list
`[{"type": "text", "text": "ab"}, {"type": "image"}, {"type": "text", "text": "cd"}]`. -/
def rdW4 : JVal :=
  .obj [("messages", .arr [.obj [("content", .arr
    [.obj [("type", .str "text"), ("text", .str "ab")],
     .obj [("type", .str "image")],
     .obj [("type", .str "text"), ("text", .str "cd")]])]])]

/-- The raw JSON text decoding to `rdW4`. -/
def bodyW4 : String :=
  "\x7b\"messages\": [\x7b\"content\": [\x7b\"type\": \"text\", \"text\": \"ab\"\x7d, \x7b\"type\": \"image\"\x7d, \x7b\"type\": \"text\", \"text\": \"cd\"\x7d]\x7d]\x7d"

/-- A `json.loads` behaviour that decodes `bodyW4` to `rdW4`. -/
def jlW4 : String → Option JVal := fun s => if s = bodyW4 then some rdW4 else none

/-- C4 (witness): on the spec's mixed text/image example the amended
theorem applies and yields the preview `"ab cd"`. -/
theorem C4_witness :
    bodyW4 ≠ "" ∧ jlW4 bodyW4 = some rdW4 ∧ promptShapeOK rdW4 = true ∧
      spec_prompt_preview rdW4 = "ab cd" ∧
      (extractModelPrompt jlW4 bodyW4).map Prod.snd = .ok (spec_prompt_preview rdW4) :=
  ⟨by decide, by simp [jlW4], by decide, by decide,
    C4_amended jlW4 bodyW4 rdW4 (by decide) (by simp [jlW4]) (by decide)⟩

/-! ## Claim C7 -/

/-- Response body for C7's counterexample: a well-formed `usage` object
(3 input, 4 output tokens) next to a `content` list whose element is not
an object. -/
def rdC7 : JVal :=
  .obj [("usage", .obj [("input_tokens", .num 3), ("output_tokens", .num 4)]),
        ("content", .arr [.num 5])]

/-- The raw JSON text decoding to `rdC7`. -/
def respBodyC7 : String :=
  "\x7b\"usage\": \x7b\"input_tokens\": 3, \"output_tokens\": 4\x7d, \"content\": [5]\x7d"

/-- A `response.json()` behaviour that decodes `respBodyC7` to `rdC7`. -/
def jlC7 : String → Option JVal := fun s => if s = respBodyC7 then some rdC7 else none

/-- C7 (counterexample): for the response body
`{"usage": {"input_tokens": 3, "output_tokens": 4}, "content": [5]}`, the
content extraction fails (the block `5` has no `.get`), so the raw
response text is used as the preview — but the token counts, already
assigned before the failure, are kept at 3 and 4 rather than the 0 the
claim requires for a shape failure. -/
theorem C7_counterexample :
    parseResponseFields jlC7 respBodyC7 = (pyTake respBodyC7 500, .num 3, .num 4) ∧
      (JVal.num 3 ≠ .num 0 ∧ JVal.num 4 ≠ .num 0) := by
  refine ⟨?_, by simp, by simp⟩
  have h2 : jlC7 respBodyC7 = some rdC7 := by simp [jlC7]
  rw [parseResponseFields, h2]
  rfl

/-- C7 (amended): on a successful upstream response, (a) if the body
fails to JSON-decode, the preview is the raw response text truncated to
500 characters (empty when the body is empty) and both token counts are
0; (b) if the body decodes to the expected shape — an object whose
`usage` defaults to an object and whose `content` defaults to an array of
processable typed blocks — the token counts come from `usage` (0 when
absent) and the preview is the space-joined text of the `"text"`-typed
content blocks truncated to 500 characters; (c) if the body decodes to an
object whose `usage` is an object but whose non-empty `content` array
fails block extraction, the preview falls back to the raw response text
while the token counts already read from `usage` are *kept*, not zeroed. -/
theorem C7_amended (jsonLoads : String → Option JVal) (respBody : String) :
    (jsonLoads respBody = none →
      parseResponseFields jsonLoads respBody =
        ((if respBody.isEmpty then "" else pyTake respBody 500), .num 0, .num 0)) ∧
    (∀ rd, jsonLoads respBody = some rd → responseShapeOK rd = true →
      parseResponseFields jsonLoads respBody =
        (spec_response_preview rd, spec_input_tokens rd, spec_output_tokens rd)) ∧
    (∀ kvs ukvs bs, jsonLoads respBody = some (.obj kvs) →
      (lookupLast kvs "usage").getD (.obj []) = .obj ukvs →
      (lookupLast kvs "content").getD (.arr []) = .arr bs →
      bs ≠ [] → bs.all blockOK = false →
      parseResponseFields jsonLoads respBody =
        ((if respBody.isEmpty then "" else pyTake respBody 500),
          (lookupLast ukvs "input_tokens").getD (.num 0),
          (lookupLast ukvs "output_tokens").getD (.num 0))) := by
  refine ⟨?_, ?_, ?_⟩
  · intro h
    rw [parseResponseFields, h]
  · intro rd hp hs
    cases rd with
    | obj kvs =>
      rw [parseResponseFields, hp]
      dsimp only [pyGet]
      simp only [responseShapeOK, Bool.and_eq_true] at hs
      obtain ⟨hus, hcont⟩ := hs
      cases hu : (lookupLast kvs "usage").getD (.obj []) with
      | obj ukvs =>
        dsimp only
        cases hc : (lookupLast kvs "content").getD (.arr []) with
        | arr bs =>
          rw [hc] at hcont
          dsimp only at hcont
          rw [spec_response_preview, spec_input_tokens, spec_output_tokens, hu, hc]
          dsimp only
          cases bs with
          | nil => rfl
          | cons b bt =>
            have htr : pyTruthy (.arr (b :: bt)) = true := by simp [pyTruthy]
            rw [if_pos htr, joinTextParts_of_blockOK _ hcont]
        | null => rw [hc] at hcont; cases hcont
        | bool x => rw [hc] at hcont; cases hcont
        | num x => rw [hc] at hcont; cases hcont
        | str x => rw [hc] at hcont; cases hcont
        | obj x => rw [hc] at hcont; cases hcont
      | null => rw [hu] at hus; cases hus
      | bool x => rw [hu] at hus; cases hus
      | num x => rw [hu] at hus; cases hus
      | str x => rw [hu] at hus; cases hus
      | arr x => rw [hu] at hus; cases hus
    | null => simp [responseShapeOK] at hs
    | bool b => simp [responseShapeOK] at hs
    | num n => simp [responseShapeOK] at hs
    | str s => simp [responseShapeOK] at hs
    | arr xs => simp [responseShapeOK] at hs
  · intro kvs ukvs bs hp hu hc hbs hbad
    rw [parseResponseFields, hp]
    dsimp only [pyGet]
    rw [hu]
    dsimp only
    rw [hc]
    dsimp only
    have htr : pyTruthy (.arr bs) = true := by
      cases bs with
      | nil => cases hbs rfl
      | cons b bt => simp [pyTruthy]
    rw [if_pos htr]
    have := joinTextParts_of_not_blockOK bs hbad
    cases hj : joinTextParts bs with
    | error e => rfl
    | ok s => rw [hj] at this; cases this

/-- Response body for C7's witness: one text block and a usage object. -/
def rdW7 : JVal :=
  .obj [("usage", .obj [("input_tokens", .num 10), ("output_tokens", .num 20)]),
        ("content", .arr [.obj [("type", .str "text"), ("text", .str "hello")]])]

/-- The raw JSON text decoding to `rdW7`. -/
def respBodyW7 : String :=
  "\x7b\"usage\": \x7b\"input_tokens\": 10, \"output_tokens\": 20\x7d, \"content\": [\x7b\"type\": \"text\", \"text\": \"hello\"\x7d]\x7d"

/-- A `response.json()` behaviour that decodes `respBodyW7` to `rdW7`. -/
def jlW7 : String → Option JVal := fun s => if s = respBodyW7 then some rdW7 else none

/-- C7 (witness): on a well-shaped response with one text block the
amended theorem applies: preview `"hello"`, tokens 10 and 20. -/
theorem C7_witness :
    jlW7 respBodyW7 = some rdW7 ∧ responseShapeOK rdW7 = true ∧
      spec_response_preview rdW7 = "hello" ∧ spec_input_tokens rdW7 = .num 10 ∧
      parseResponseFields jlW7 respBodyW7 =
        (spec_response_preview rdW7, spec_input_tokens rdW7, spec_output_tokens rdW7) :=
  ⟨by simp [jlW7], by decide, by decide, rfl,
    (C7_amended jlW7 respBodyW7).2.1 rdW7 (by simp [jlW7]) (by decide)⟩

/-! ## Claims about the whole handler: C1, C2, C3, C5, C6 -/

/-- A `json.loads` that always reports a decode failure. -/
def jlNone : String → Option JVal := fun _ => none

/-- C1's environment: the upstream attempt raises a transport error and
the log file is writable. -/
def envC1 : ProxyEnv :=
  ⟨jlNone, fun _ => .err "connection refused", true, "",
    "2025-06-01T12:00:00", 5, "default"⟩

/-- C1's inbound request: a POST reaching the proxy handler. -/
def reqC1 : Inbound := ⟨"POST", "/v1/messages", [], ""⟩

/-- C1 (counterexample): a request that reaches the proxy handler (one
upstream attempt is made and a 502 response is sent, i.e. the upstream
call failed) appends *zero* log entries — the `except` branch of
`proxy_request` (server.py lines 178-184) never calls `log_request`, so
no entry with status 502 and zero token counts is written. -/
theorem C1_counterexample :
    (proxy_request envC1 reqC1).statusCode = some 502 ∧
      (proxy_request envC1 reqC1).callsMade.length = 1 ∧
      (proxy_request envC1 reqC1).entries = [] :=
  ⟨rfl, rfl, rfl⟩

/-- C1 (amended): for every request that reaches the handler and whose
logging parse does not raise, the number of appended log entries is: one
when the upstream call succeeds and the log append succeeds, zero when
the upstream call fails (and zero when the log append itself fails). On
upstream failure no entry at all is written — in particular none with
status 502 and zero token counts. -/
theorem C1_amended (env : ProxyEnv) (req : Inbound) (n : Int) (mp : JVal × String)
    (hcl : readContentLength req.headers = .ok n)
    (hmp : extractModelPrompt env.jsonLoads (requestBodyOf req n) = .ok mp) :
    (proxy_request env req).entries.length =
      (match env.upstream (outboundOf req (requestBodyOf req n)) with
       | .ok _ => if env.logWriteOk then 1 else 0
       | .err _ => 0) := by
  rw [proxy_request, hcl]
  dsimp only
  rw [hmp]
  dsimp only
  cases hup : env.upstream (outboundOf req (requestBodyOf req n)) with
  | ok resp =>
    cases hl : env.logWriteOk with
    | false => simp [HandlerOutcome.entries]
    | true => simp [HandlerOutcome.entries]
  | err msg => simp [HandlerOutcome.entries]

/-- C1 (witness): a successful upstream exchange with a writable log file
appends exactly one entry. -/
def envW1 : ProxyEnv :=
  ⟨jlNone, fun _ => .ok ⟨200, [], "ok"⟩, true, "", "2025-06-01T12:00:00", 7, "default"⟩

/-- C1's witness request. -/
def reqW1 : Inbound := ⟨"POST", "/v1/messages", [], ""⟩

/-- C1 (witness): the amended count evaluates to one on a successful
exchange. -/
theorem C1_witness :
    readContentLength reqW1.headers = .ok 0 ∧
      extractModelPrompt envW1.jsonLoads (requestBodyOf reqW1 0) = .ok (.str "", "") ∧
      (proxy_request envW1 reqW1).entries.length = 1 :=
  ⟨rfl, rfl, C1_amended envW1 reqW1 0 (.str "", "") rfl rfl⟩

/-- C2's environment: `json.loads` decodes `"[1]"` to the JSON array
`[1]` — valid JSON with a non-object top level. -/
def envC2 : ProxyEnv :=
  ⟨fun s => if s = "[1]" then some (.arr [.num 1]) else none,
    fun _ => .ok ⟨200, [], "ok"⟩, true, "", "2025-06-01T12:00:00", 3, "default"⟩

/-- C2's inbound request carrying the body `"[1]"`. -/
def reqC2 : Inbound := ⟨"POST", "/v1/messages", [("Content-Length", "3")], "[1]"⟩

/-- C2 (counterexample): the body `"[1]"` is valid JSON, but its top
level is not an object, so `request_data.get("model", "")` raises an
uncaught `AttributeError` — only `json.JSONDecodeError` is caught — and
the request is aborted: it is never forwarded to upstream. -/
theorem C2_counterexample :
    envC2.jsonLoads "[1]" = some (.arr [.num 1]) ∧
      proxy_request envC2 reqC2 = .crash .attributeError ∧
      (proxy_request envC2 reqC2).callsMade = [] := by
  refine ⟨by simp [envC2], ?_, ?_⟩
  · have hcl : readContentLength reqC2.headers = .ok 3 := rfl
    have hb : requestBodyOf reqC2 3 = "[1]" := rfl
    rw [proxy_request, hcl]
    dsimp only
    rw [hb]
    rfl
  · have hcl : readContentLength reqC2.headers = .ok 3 := rfl
    have hb : requestBodyOf reqC2 3 = "[1]" := rfl
    rw [proxy_request, hcl]
    dsimp only
    rw [hb]
    rfl

/-- C2 (amended): for every inbound body that fails to JSON-decode — and
for an empty body — the request is still forwarded to upstream with the
raw body unchanged, and any log entry written for it carries the empty
model and the empty prompt preview. Valid JSON of unexpected shape,
however, raises an uncaught exception and the request is never forwarded
(see the counterexample). -/
theorem C2_amended (env : ProxyEnv) (req : Inbound) (n : Int)
    (hcl : readContentLength req.headers = .ok n)
    (hjson : env.jsonLoads (requestBodyOf req n) = none) :
    (proxy_request env req).callsMade = [outboundOf req (requestBodyOf req n)] ∧
      ∀ e ∈ (proxy_request env req).entries,
        e.model = .str "" ∧ e.prompt_preview = "" := by
  have hmp : extractModelPrompt env.jsonLoads (requestBodyOf req n) = .ok (.str "", "") := by
    rw [extractModelPrompt]
    by_cases hb : requestBodyOf req n = ""
    · rw [if_pos hb]
    · rw [if_neg hb, hjson]
  rw [proxy_request, hcl]
  dsimp only
  rw [hmp]
  dsimp only
  cases hup : env.upstream (outboundOf req (requestBodyOf req n)) with
  | ok resp =>
    cases hl : env.logWriteOk with
    | false => simp [HandlerOutcome.entries, HandlerOutcome.callsMade]
    | true =>
      refine ⟨by simp [HandlerOutcome.callsMade], ?_⟩
      intro e he
      simp [HandlerOutcome.entries] at he
      subst he
      exact ⟨rfl, rfl⟩
  | err msg => simp [HandlerOutcome.entries, HandlerOutcome.callsMade]

/-- C2 (witness): a malformed body (every parse fails under `jlNone`) is
still forwarded, with empty model and preview in the log entry. -/
def envW2 : ProxyEnv :=
  ⟨jlNone, fun _ => .ok ⟨200, [], "ok"⟩, true, "", "2025-06-01T12:00:00", 2, "default"⟩

/-- C2's witness request: body `"{not json"` (9 bytes). -/
def reqW2 : Inbound :=
  ⟨"POST", "/v1/messages", [("Content-Length", "9")], "\x7bnot json"⟩

/-- C2 (witness): the malformed body `"{not json"` is forwarded intact. -/
theorem C2_witness :
    readContentLength reqW2.headers = .ok 9 ∧
      envW2.jsonLoads (requestBodyOf reqW2 9) = none ∧
      ((proxy_request envW2 reqW2).callsMade = [outboundOf reqW2 (requestBodyOf reqW2 9)] ∧
        ∀ e ∈ (proxy_request envW2 reqW2).entries,
          e.model = .str "" ∧ e.prompt_preview = "") :=
  ⟨rfl, rfl, C2_amended envW2 reqW2 9 rfl rfl⟩

/-- C3's environment: upstream succeeds with a 200 response, but the log
append raises (`logWriteOk = false`, e.g. a full disk). -/
def envC3 : ProxyEnv :=
  ⟨jlNone, fun _ => .ok ⟨200, [], "OK"⟩, false, "disk full",
    "2025-06-01T12:00:00", 1, "default"⟩

/-- C3's inbound request. -/
def reqC3 : Inbound := ⟨"POST", "/v1/complete", [], ""⟩

/-- C3 (counterexample): the upstream call succeeds with status 200 and
body `"OK"`, yet because the log append raises, the caller receives 502
with the error body — the logging failure *does* change the HTTP response
(`log_request` is called inside the handler's `try`, server.py line 165,
and its exception lands in the 502 `except` branch). -/
theorem C3_counterexample :
    envC3.upstream (outboundOf reqC3 "") = .ok ⟨200, [], "OK"⟩ ∧
      proxy_request envC3 reqC3 =
        .respond 502 [("Content-Type", "application/json")] (errorBody "disk full")
          [] [outboundOf reqC3 ""] :=
  ⟨rfl, rfl⟩

/-- C3 (amended): failures of the best-effort response parsing never
change the caller's response (the handler's fallback absorbs them — see
C7), but a failure of the log append does: when the upstream call
succeeded and the log write raises, the caller receives 502 with a JSON
error body instead of the upstream status and body, and nothing is
logged. Upstream transport failures also yield 502. -/
theorem C3_amended (env : ProxyEnv) (req : Inbound) (n : Int) (mp : JVal × String)
    (resp : UpstreamResponse)
    (hcl : readContentLength req.headers = .ok n)
    (hmp : extractModelPrompt env.jsonLoads (requestBodyOf req n) = .ok mp)
    (hup : env.upstream (outboundOf req (requestBodyOf req n)) = .ok resp)
    (hlog : env.logWriteOk = false) :
    proxy_request env req =
      .respond 502 [("Content-Type", "application/json")] (errorBody env.logErrMsg)
        [] [outboundOf req (requestBodyOf req n)] := by
  rw [proxy_request, hcl]
  dsimp only
  rw [hmp]
  dsimp only
  rw [hup]
  dsimp only
  rw [hlog]
  rfl

/-- C3 (witness): the amended theorem applied to `envC3`'s failing disk. -/
theorem C3_witness :
    envC3.logWriteOk = false ∧
      proxy_request envC3 reqC3 =
        .respond 502 [("Content-Type", "application/json")] (errorBody "disk full")
          [] [outboundOf reqC3 (requestBodyOf reqC3 0)] :=
  ⟨rfl, C3_amended envC3 reqC3 0 (.str "", "") ⟨200, [], "OK"⟩ rfl rfl rfl rfl⟩

/-- C5's counterexample environment: upstream succeeds with status 201
and body `"created"`, but the log append raises (`str(e)` is
`"permission denied"`). -/
def envC5 : ProxyEnv :=
  ⟨jlNone, fun _ => .ok ⟨201, [("X-Upstream", "yes")], "created"⟩, false,
    "permission denied", "2025-06-02T08:00:00", 6, "default"⟩

/-- C5's counterexample request. -/
def reqC5 : Inbound := ⟨"POST", "/v1/messages", [], ""⟩

/-- C5 (counterexample): the upstream call succeeds with status 201 and
body `"created"`, yet the caller receives 502 with the error body — the
log append raising inside the `try` (server.py line 165) lands in the
502 `except` branch, so on this run the claim's promised `S`/`B`
passthrough does not happen even though upstream succeeded. -/
theorem C5_counterexample :
    envC5.upstream (outboundOf reqC5 "") = .ok ⟨201, [("X-Upstream", "yes")], "created"⟩ ∧
      (proxy_request envC5 reqC5).statusCode = some 502 ∧
      (proxy_request envC5 reqC5).respBody = some (errorBody "permission denied") ∧
      (502 : Nat) ≠ 201 ∧ errorBody "permission denied" ≠ "created" :=
  ⟨rfl, rfl, rfl, by decide, by decide⟩

/-- C5 (amended): when the upstream call succeeds with status `S`,
headers `H` and body `B`, *and the log append also succeeds*, the caller
receives exactly status `S` and body `B` byte-for-byte, with the headers
of `H` copied except `Transfer-Encoding`, `Content-Encoding` and
`Content-Length`, and a `Content-Length` set to the forwarded body's
length; exactly one log entry is appended and exactly one upstream call
was made. (When the log append fails, the caller instead receives 502 —
see the counterexample and claim C3.) -/
theorem C5_theorem (env : ProxyEnv) (req : Inbound) (n : Int) (mp : JVal × String)
    (resp : UpstreamResponse)
    (hcl : readContentLength req.headers = .ok n)
    (hmp : extractModelPrompt env.jsonLoads (requestBodyOf req n) = .ok mp)
    (hup : env.upstream (outboundOf req (requestBodyOf req n)) = .ok resp)
    (hlog : env.logWriteOk = true) :
    proxy_request env req =
      .respond resp.status
        (filterRespHeaders resp.headers ++ [("Content-Length", toString resp.body.length)])
        resp.body
        [⟨env.now, env.project, mp.1, mp.2,
          (parseResponseFields env.jsonLoads resp.body).1,
          (parseResponseFields env.jsonLoads resp.body).2.1,
          (parseResponseFields env.jsonLoads resp.body).2.2,
          env.durationMs, resp.status, req.path⟩]
        [outboundOf req (requestBodyOf req n)] := by
  rw [proxy_request, hcl]
  dsimp only
  rw [hmp]
  dsimp only
  rw [hup]
  dsimp only
  rw [hlog]
  rfl

/-- C5's witness environment: upstream answers 200 with one header to
copy, one header to strip, and the body `"hi"`. -/
def envW5 : ProxyEnv :=
  ⟨jlNone,
    fun _ => .ok ⟨200, [("X-Request-Id", "abc"), ("Transfer-Encoding", "chunked")], "hi"⟩,
    true, "", "2025-06-01T12:00:00", 9, "default"⟩

/-- C5's witness request. -/
def reqW5 : Inbound := ⟨"GET", "/v1/models", [], ""⟩

/-- C5 (witness): the 200/"hi" upstream response is relayed verbatim,
`Transfer-Encoding` stripped and `Content-Length: 2` set. -/
theorem C5_witness :
    envW5.logWriteOk = true ∧
      proxy_request envW5 reqW5 =
        .respond 200 [("X-Request-Id", "abc"), ("Content-Length", "2")] "hi"
          [⟨"2025-06-01T12:00:00", "default", .str "", "", "hi", .num 0, .num 0,
            9, 200, "/v1/models"⟩]
          [outboundOf reqW5 (requestBodyOf reqW5 0)] :=
  ⟨rfl, C5_theorem envW5 reqW5 0 (.str "", "")
    ⟨200, [("X-Request-Id", "abc"), ("Transfer-Encoding", "chunked")], "hi"⟩
    rfl rfl rfl rfl⟩

/-- C6: when the single upstream attempt raises a transport error with
message `msg`, the caller receives HTTP 502 with a `Content-Type:
application/json` header and the body `json.dumps({"error": msg})`, no
log entry is appended, and exactly one upstream call was made (no
retry). -/
theorem C6_theorem (env : ProxyEnv) (req : Inbound) (n : Int) (mp : JVal × String)
    (msg : String)
    (hcl : readContentLength req.headers = .ok n)
    (hmp : extractModelPrompt env.jsonLoads (requestBodyOf req n) = .ok mp)
    (hup : env.upstream (outboundOf req (requestBodyOf req n)) = .err msg) :
    proxy_request env req =
      .respond 502 [("Content-Type", "application/json")] (errorBody msg)
        [] [outboundOf req (requestBodyOf req n)] ∧
      (proxy_request env req).callsMade.length = 1 := by
  have h : proxy_request env req =
      .respond 502 [("Content-Type", "application/json")] (errorBody msg)
        [] [outboundOf req (requestBodyOf req n)] := by
    rw [proxy_request, hcl]
    dsimp only
    rw [hmp]
    dsimp only
    rw [hup]
  exact ⟨h, by rw [h]; rfl⟩

/-- C6's witness environment: the upstream attempt times out. -/
def envW6 : ProxyEnv :=
  ⟨jlNone, fun _ => .err "timed out", true, "", "2025-06-01T12:00:00", 300000, "default"⟩

/-- C6's witness request. -/
def reqW6 : Inbound := ⟨"POST", "/v1/messages", [], ""⟩

/-- C6 (witness): the timeout yields 502 with
`{"error": "timed out"}` and a single upstream attempt. -/
theorem C6_witness :
    envW6.upstream (outboundOf reqW6 (requestBodyOf reqW6 0)) = .err "timed out" ∧
      (proxy_request envW6 reqW6 =
        .respond 502 [("Content-Type", "application/json")] (errorBody "timed out")
          [] [outboundOf reqW6 (requestBodyOf reqW6 0)] ∧
        (proxy_request envW6 reqW6).callsMade.length = 1) :=
  ⟨rfl, C6_theorem envW6 reqW6 0 (.str "", "") "timed out" rfl rfl rfl⟩

/-! ## Claim C8 -/

/-- The log-file path determines the date: distinct dates give distinct
paths. -/
lemma get_log_file_inj (logDir project : String) {d1 d2 : String}
    (h : get_log_file logDir project d1 = get_log_file logDir project d2) :
    d1 = d2 := by
  unfold get_log_file at h
  have h' := congrArg String.data h
  simp only [String.data_append, List.append_assoc] at h'
  have h2 := List.append_cancel_left (List.append_cancel_left
    (List.append_cancel_left (List.append_cancel_left h')))
  exact String.ext (List.append_cancel_right h2)

/-- C8: each append goes to `<log_root>/<project>/api-log-<date>.jsonl`
for the date passed at the moment of that write; writes dated `d2 ≠ d1`
go to a different file than writes dated `d1` and leave the `d1` file
untouched, and each write appends exactly one serialized record followed
by a newline to its own file. -/
theorem C8_theorem (logDir project d1 d2 : String) (e : LogEntry)
    (fs : String → String) (h : d1 ≠ d2) :
    get_log_file logDir project d1 ≠ get_log_file logDir project d2 ∧
      log_request logDir project d2 e fs (get_log_file logDir project d1) =
        fs (get_log_file logDir project d1) ∧
      log_request logDir project d2 e fs (get_log_file logDir project d2) =
        fs (get_log_file logDir project d2) ++ serializeLogEntry e ++ "\n" := by
  have hne : get_log_file logDir project d1 ≠ get_log_file logDir project d2 :=
    fun hh => h (get_log_file_inj logDir project hh)
  refine ⟨hne, ?_, ?_⟩
  · rw [log_request, if_neg hne]
  · rw [log_request, if_pos rfl]

/-- C8's witness log entry. -/
def entryW8 : LogEntry :=
  ⟨"2025-06-01T23:59:59", "default", .str "claude-3", "hi", "hello",
    .num 10, .num 20, 1200, 200, "/v1/messages"⟩

/-- C8 (witness): a write dated 2025-06-02 leaves the 2025-06-01 file
untouched and appends one record plus newline to its own file. -/
theorem C8_witness :
    ("2025-06-01" : String) ≠ "2025-06-02" ∧
      (get_log_file "/data/api-logs" "default" "2025-06-01" ≠
          get_log_file "/data/api-logs" "default" "2025-06-02" ∧
        log_request "/data/api-logs" "default" "2025-06-02" entryW8 (fun _ => "")
            (get_log_file "/data/api-logs" "default" "2025-06-01") =
          (fun _ => ("" : String)) (get_log_file "/data/api-logs" "default" "2025-06-01") ∧
        log_request "/data/api-logs" "default" "2025-06-02" entryW8 (fun _ => "")
            (get_log_file "/data/api-logs" "default" "2025-06-02") =
          (fun _ => ("" : String)) (get_log_file "/data/api-logs" "default" "2025-06-02") ++
            serializeLogEntry entryW8 ++ "\n") :=
  ⟨by decide,
    C8_theorem "/data/api-logs" "default" "2025-06-01" "2025-06-02" entryW8
      (fun _ => "") (by decide)⟩

/-! ## Claim C10 -/

/-- C10: when the `Content-Length` header is absent or `"0"`, the handler
behaves exactly as if the connection carried no body at all (no byte of
`rfile` is consulted), and the single upstream call it makes — whatever
the outcome — carries an empty body. -/
theorem C10_theorem (env : ProxyEnv) (req : Inbound)
    (h : headerGet req.headers "Content-Length" = none ∨
         headerGet req.headers "Content-Length" = some "0") :
    proxy_request env req = proxy_request env ⟨req.method, req.path, req.headers, ""⟩ ∧
      (proxy_request env req).callsMade = [outboundOf req ""] := by
  have hcl : readContentLength req.headers = .ok 0 := by
    rcases h with h | h
    · rw [readContentLength, h]
    · rw [readContentLength, h]
      rfl
  have hmp : extractModelPrompt env.jsonLoads "" = .ok (.str "", "") := by
    rw [extractModelPrompt, if_pos rfl]
  constructor
  · show proxy_request env req = proxy_request env ⟨req.method, req.path, req.headers, ""⟩
    rw [proxy_request, proxy_request]
    dsimp only
    rw [hcl]
    dsimp only
    rfl
  · rw [proxy_request, hcl]
    dsimp only
    rw [show requestBodyOf req 0 = "" from rfl, hmp]
    dsimp only
    cases hup : env.upstream (outboundOf req "") with
    | ok resp =>
      cases hl : env.logWriteOk with
      | false => simp [HandlerOutcome.callsMade]
      | true => simp [HandlerOutcome.callsMade]
    | err msg => simp [HandlerOutcome.callsMade]

/-- C10's witness environment. -/
def envW10 : ProxyEnv :=
  ⟨jlNone, fun _ => .ok ⟨200, [], "ok"⟩, true, "", "2025-06-01T12:00:00", 4, "default"⟩

/-- C10's witness request: no `Content-Length` header although the
connection carries (chunked) bytes. -/
def reqW10 : Inbound := ⟨"POST", "/v1/messages", [("Accept", "application/json")], "ignored bytes"⟩

/-- C10 (witness): without a `Content-Length` header the wire bytes are
ignored and the upstream call carries an empty body. -/
theorem C10_witness :
    headerGet reqW10.headers "Content-Length" = none ∧
      (proxy_request envW10 reqW10 =
          proxy_request envW10 ⟨reqW10.method, reqW10.path, reqW10.headers, ""⟩ ∧
        (proxy_request envW10 reqW10).callsMade = [outboundOf reqW10 ""]) :=
  ⟨rfl, C10_theorem envW10 reqW10 (Or.inl rfl)⟩

end ApiLogger
